import Mathlib

/-!
Verification of the browser capture/correlation engine of the agent-toolkit
repository, as implemented in
`skills/web-automation/scripts/network_inspector.py`,
`skills/web-automation/scripts/console_debugger.py` and
`skills/web-automation/scripts/combined_debugger.py`.

The Python code is shallowly embedded: every handler becomes a pure function
from the previous collector state to the next one, Python dicts with a fixed
key set become structures (a key that can be absent or hold `None` becomes an
`Option` field), protocol identifiers and strings become `String`, and the
float millisecond timestamps become `Int` (only ordering, subtraction and
absolute-difference comparisons of timestamps occur in the code, all of which
are representation-independent).  Wall-clock metadata, header dictionaries,
CDP timing breakdowns and stack traces are not inspected by any property
below and are left out of the records; every field that a property reads is
modelled.
-/

namespace AgentToolkit

/-! ### Event filter

`NetworkInspector._should_capture` (network_inspector.py lines 55-65) and
`CombinedDebugger._should_capture_request` (combined_debugger.py lines 61-71)
are textually identical; both are embedded by `should_capture`.  The compiled
URL regex is modelled as its match predicate `String → Bool` (the code only
ever calls `self.url_pattern.search(url)` and tests truthiness). -/

/-- Embeds Python's `str.lower()`: character-wise lowering.  (Stated over the
character list of the string rather than through `String.toLower`, whose
`String.mapAux` recursion is well-founded and does not reduce in the kernel;
on the ASCII resource-type strings the two agree character for character.) -/
def str_lower (s : String) : String :=
  ⟨s.data.map Char.toLower⟩

/-- Embeds the `if self.filter_types:` block: Python truthiness skips the
resource-type test both when `filter_types` is `None` and when it is an empty
list; otherwise the lowered resource type must occur among the lowered
allowlist entries. -/
def type_filter_passes (filter_types : Option (List String)) (resource_type : String) : Bool :=
  match filter_types with
  | none => true
  | some ts =>
    if ts.isEmpty then true
    else (ts.map str_lower).contains (str_lower resource_type)

/-- Embeds the `if self.url_pattern:` block: when a pattern is configured the
URL must match it (`self.url_pattern.search(url)`). -/
def pattern_passes (url_pattern : Option (String → Bool)) (url : String) : Bool :=
  match url_pattern with
  | none => true
  | some search => search url

/-- Embeds `NetworkInspector._should_capture` and the identical
`CombinedDebugger._should_capture_request`: the two early-return guards
amount to the conjunction of the two filter checks. -/
def should_capture (filter_types : Option (List String)) (url_pattern : Option (String → Bool))
    (url resource_type : String) : Bool :=
  type_filter_passes filter_types resource_type && pattern_passes url_pattern url

/-- Modelled from the spec: "A candidate network event is accepted iff its
resource type is in the allowlist (case-insensitive) and its URL matches the
pattern (if present)" (spec §4.2), the spec-side comparand for `should_capture`.
An absent allowlist or pattern accepts everything; a present allowlist accepts
exactly the case-insensitive members. -/
def accepts_spec (filter_types : Option (List String)) (url_pattern : Option (String → Bool))
    (url resource_type : String) : Bool :=
  (match filter_types with
   | none => true
   | some ts => (ts.map str_lower).contains (str_lower resource_type))
  && (match url_pattern with
      | none => true
      | some search => search url)

/-! ### Console severity filter

`ConsoleDebugger._on_console_api_called` (console_debugger.py lines 82-105),
`ConsoleDebugger._type_to_level` (lines 133-154) and
`CombinedDebugger._on_console` (combined_debugger.py lines 208-222).
The formatted argument text is taken as an opaque string parameter. -/

/-- Embeds the `mapping` dict of `ConsoleDebugger._type_to_level`. -/
def level_mapping : List (String × String) :=
  [("log", "info"), ("info", "info"), ("debug", "debug"), ("warning", "warning"),
   ("warn", "warning"), ("error", "error"), ("assert", "error"), ("trace", "debug"),
   ("dir", "info"), ("dirxml", "info"), ("table", "info"), ("count", "info"),
   ("timeEnd", "info"), ("group", "info"), ("groupCollapsed", "info"),
   ("groupEnd", "info"), ("clear", "info")]

/-- Embeds `ConsoleDebugger._type_to_level`: `mapping.get(msg_type, "info")`. -/
def type_to_level (msg_type : String) : String :=
  (level_mapping.lookup msg_type).getD "info"

/-- One entry of `ConsoleDebugger.messages` / `ConsoleDebugger.exceptions`:
the keys `type`, `level`, `text` and the optional `timestamp` key (present
only when `include_timestamps` is set).  The `args` and `stack` keys are not
read by any property and are omitted. -/
structure ConsoleEntry where
  type : String
  level : String
  text : String
  timestamp : Option Int
deriving DecidableEq, Repr

/-- Embeds the effect of `ConsoleDebugger._on_console_api_called` on
`self.messages`: drop the message when `errors_only` is set and the raw type
is not one of `error`, `warning`, `assert`; otherwise append the formatted
message record. -/
def on_console_api_called (errors_only include_timestamps : Bool) (msg_type text : String)
    (ts : Int) (messages : List ConsoleEntry) : List ConsoleEntry :=
  if errors_only ∧ msg_type ≠ "error" ∧ msg_type ≠ "warning" ∧ msg_type ≠ "assert" then
    messages
  else
    messages ++ [{ type := msg_type, level := type_to_level msg_type, text := text,
                   timestamp := if include_timestamps then some ts else none }]

/-! ### Response body truncation

`NetworkInspector._on_loading_finished`, network_inspector.py lines 131-133.
The Python `str` body is modelled as its character sequence `List Char`:
`len(body)` is `List.length`, the slice `body[:max]` is `List.take max`, and
string concatenation is `++`.  Note that the right-hand side of the Python
assignment evaluates `len(body)` before `body` is rebound, so the marker
carries the original length. -/

/-- Embeds the f-string `f"... (truncated, total {len(body)} bytes)"`. -/
def truncation_marker (original_length : Nat) : List Char :=
  "... (truncated, total ".data ++ (toString original_length).data ++ " bytes)".data

/-- Embeds the body-truncation branch of `NetworkInspector._on_loading_finished`:
`if len(body) > self.max_body_size: body = body[:max] + marker`. -/
def store_body (max_body_size : Nat) (body : List Char) : List Char :=
  if body.length > max_body_size then
    body.take max_body_size ++ truncation_marker body.length
  else
    body

/-! ### Network inspector collector state and CDP handlers

`NetworkInspector` (network_inspector.py).  A value of `self.requests` /
`self.completed` dict is embedded as `NetReq`.  The `response` key is always
present in handler-created records (initialized to `None`, later a dict), but
absent from the navigation-error record, so it is `Option (Option ResponseInfo)`:
`none` = key absent, `some none` = key present holding `None`, `some (some r)`
= key present holding a response dict.  The `request` sub-dict (headers /
post data), `timestamp` and `timing` keys are not read by any property and
are omitted.  Body capture (`capture_bodies=True`) issues an external CDP
call and is modelled separately by `store_body`; the collector below embeds
the `capture_bodies=False` configuration. -/

/-- Embeds the response dict built by `NetworkInspector._on_response_received`;
the `status` key is always set there (`response["status"]`), `headers` and
`remote_address` are unread and omitted. -/
structure ResponseInfo where
  status : Int
  status_text : String
  mime_type : String
deriving DecidableEq, Repr

/-- Embeds the error dict built by `NetworkInspector._on_loading_failed` and by
the navigation-error entry of `NetworkInspector.capture`; the navigation entry
has no `canceled` key, hence the `Option`.  `blocked_reason` and `cors_error`
are unread and omitted. -/
structure ErrorInfo where
  type : String
  error_text : String
  canceled : Option Bool
deriving DecidableEq, Repr

/-- One entry of `NetworkInspector.requests` / `NetworkInspector.completed`. -/
structure NetReq where
  id : String
  url : String
  method : Option String
  type : Option String
  response : Option (Option ResponseInfo)
  error : Option ErrorInfo
  completed : Option Bool
  encoded_data_length : Option Nat
deriving DecidableEq, Repr

/-- Collector state of a `NetworkInspector`: the pending dict `self.requests`
(modelled by its lookup function) and the finished list `self.completed`. -/
structure NIState where
  requests : String → Option NetReq
  completed : List NetReq

/-- Initial collector state (`self.requests = {}`, `self.completed = []`). -/
def ni_init : NIState := { requests := fun _ => none, completed := [] }

/-- Python dict assignment / deletion on the pending map: lookups at the key
now return `v`, every other key is unchanged. -/
def upd (m : String → Option NetReq) (k : String) (v : Option NetReq) :
    String → Option NetReq :=
  fun k' => if k' = k then v else m k'

/-- Embeds `NetworkInspector._on_request_will_be_sent`: filtered events are
dropped, accepted events unconditionally assign a fresh record into
`self.requests[request_id]` (overwriting any record already stored there). -/
def on_request_will_be_sent (filter_types : Option (List String))
    (url_pattern : Option (String → Bool)) (st : NIState)
    (request_id url method resource_type : String) : NIState :=
  if should_capture filter_types url_pattern url resource_type then
    { st with
      requests := upd st.requests request_id (some
        { id := request_id, url := url, method := some method,
          type := some resource_type, response := some none, error := none,
          completed := none, encoded_data_length := none }) }
  else st

/-- Embeds `NetworkInspector._on_response_received`: unknown request ids are
ignored, otherwise the pending record's `response` key is set. -/
def on_response_received (st : NIState) (request_id : String) (resp : ResponseInfo) : NIState :=
  match st.requests request_id with
  | none => st
  | some req =>
    { st with requests := upd st.requests request_id (some { req with response := some (some resp) }) }

/-- Embeds `NetworkInspector._on_loading_finished` with `capture_bodies=False`.
Unknown ids are ignored.  Otherwise the pending record is mutated in place
(`completed=True`, `encoded_data_length`), then the append guard
`not errors_only or req["error"] or req["response"].get("status", 0) >= 400`
runs.  When `errors_only` holds and the record has neither an error nor a
response dict, the guard evaluates `req.get("response", {}).get("status", 0)`
on the value `None` and raises `AttributeError` inside the handler task: the
in-place mutations stand but the entry is neither appended to `completed` nor
removed from `requests`. -/
def on_loading_finished (errors_only : Bool) (st : NIState) (request_id : String)
    (encoded : Nat) : NIState :=
  match st.requests request_id with
  | none => st
  | some req =>
    let req' := { req with completed := some true, encoded_data_length := some encoded }
    if errors_only ∧ req'.error = none ∧ req'.response = some none then
      { st with requests := upd st.requests request_id (some req') }
    else
      let keep := !errors_only || req'.error.isSome ||
        (match req'.response with
         | some (some r) => decide (400 ≤ r.status)
         | _ => false)
      { requests := upd st.requests request_id none,
        completed := if keep then st.completed ++ [req'] else st.completed }

/-- Embeds `NetworkInspector._on_loading_failed`: unknown ids are ignored,
otherwise the pending record gains an error dict and `completed=False`, is
appended to `self.completed` unconditionally, and leaves the pending map. -/
def on_loading_failed (st : NIState) (request_id : String) (error_type error_text : String)
    (canceled : Bool) : NIState :=
  match st.requests request_id with
  | none => st
  | some req =>
    let req' := { req with
      error := some { type := error_type, error_text := error_text, canceled := some canceled },
      completed := some false }
    { requests := upd st.requests request_id none, completed := st.completed ++ [req'] }

/-- One CDP Network-domain notification, as dispatched to the four handlers. -/
inductive CDPEvent where
  | requestWillBeSent (request_id url method resource_type : String)
  | responseReceived (request_id : String) (resp : ResponseInfo)
  | loadingFinished (request_id : String) (encoded : Nat)
  | loadingFailed (request_id : String) (error_type error_text : String) (canceled : Bool)
deriving DecidableEq, Repr

/-- Dispatches one delivered CDP event to its `NetworkInspector` handler. -/
def ni_step (filter_types : Option (List String)) (url_pattern : Option (String → Bool))
    (errors_only : Bool) (st : NIState) : CDPEvent → NIState
  | .requestWillBeSent request_id url method resource_type =>
    on_request_will_be_sent filter_types url_pattern st request_id url method resource_type
  | .responseReceived request_id resp => on_response_received st request_id resp
  | .loadingFinished request_id encoded => on_loading_finished errors_only st request_id encoded
  | .loadingFailed request_id t e c => on_loading_failed st request_id t e c

/-- Runs one capture session's delivered event sequence through the handlers,
starting from the empty collector state. -/
def ni_run (filter_types : Option (List String)) (url_pattern : Option (String → Bool))
    (errors_only : Bool) (trace : List CDPEvent) : NIState :=
  trace.foldl (ni_step filter_types url_pattern errors_only) ni_init

/-- Embeds the dict appended by the `except` branch of
`NetworkInspector.capture` when `page.goto` raises: only `id`, `url` and
`error` keys. -/
def navigation_error_entry (url error_text : String) : NetReq :=
  { id := "navigation_error", url := url, method := none, type := none,
    response := none,
    error := some { type := "NavigationError", error_text := error_text, canceled := none },
    completed := none, encoded_data_length := none }

/-- Outcome of the `try`/`except` skeleton of `NetworkInspector.capture`
(lines 197-218): when navigation succeeds the idle wait and the
`asyncio.sleep(duration)` observation window run; when `page.goto` raises,
control jumps out of the `try` past the sleep, the navigation-error entry is
appended to `self.completed`, and teardown follows immediately. -/
structure NICaptureRun where
  slept : Bool
  data : List NetReq

/-- Embeds the control flow of `NetworkInspector.capture`: handler deliveries
(`trace`) accumulate into the collector; a failed `goto` appends the
navigation-error entry and skips the observation sleep. -/
def ni_capture (filter_types : Option (List String)) (url_pattern : Option (String → Bool))
    (errors_only : Bool) (trace : List CDPEvent) (goto_ok : Bool)
    (url error_text : String) : NICaptureRun :=
  let st := ni_run filter_types url_pattern errors_only trace
  if goto_ok then { slept := true, data := st.completed }
  else { slept := false, data := st.completed ++ [navigation_error_entry url error_text] }

/-! ### Network inspector report (`NetworkInspector.capture` lines 220-241,
`_count_by_type` lines 243-249, `_count_by_status` lines 251-267) -/

/-- Embeds the `counts` dict of `NetworkInspector._count_by_status`. -/
structure StatusCounts where
  s2xx : Nat
  s3xx : Nat
  s4xx : Nat
  s5xx : Nat
  failed : Nat
deriving DecidableEq, Repr

/-- One iteration of the `for req in self.completed` loop of
`NetworkInspector._count_by_status`: `req.get("error")` is truthy exactly for
a present error dict, `req.get("response")` exactly for a present response
dict, and the status classes are tested by an `if`/`elif` chain. -/
def count_by_status_step (counts : StatusCounts) (req : NetReq) : StatusCounts :=
  if req.error.isSome then { counts with failed := counts.failed + 1 }
  else
    match req.response with
    | some (some resp) =>
      if 200 ≤ resp.status ∧ resp.status < 300 then { counts with s2xx := counts.s2xx + 1 }
      else if 300 ≤ resp.status ∧ resp.status < 400 then { counts with s3xx := counts.s3xx + 1 }
      else if 400 ≤ resp.status ∧ resp.status < 500 then { counts with s4xx := counts.s4xx + 1 }
      else if 500 ≤ resp.status then { counts with s5xx := counts.s5xx + 1 }
      else counts
    | _ => counts

/-- Embeds `NetworkInspector._count_by_status`. -/
def count_by_status (completed : List NetReq) : StatusCounts :=
  completed.foldl count_by_status_step { s2xx := 0, s3xx := 0, s4xx := 0, s5xx := 0, failed := 0 }

/-- Sum of the five counters of the status partition. -/
def sum_counts (c : StatusCounts) : Nat :=
  c.s2xx + c.s3xx + c.s4xx + c.s5xx + c.failed

/-- Analysis helper: the counter (if any) that `count_by_status_step`
increments for a given record. -/
inductive Bucket where
  | b2xx
  | b3xx
  | b4xx
  | b5xx
  | bfailed
deriving DecidableEq, Repr

/-- Analysis helper: which status-class counter a completed record falls
into; `none` when the record increments no counter (no error and either no
response dict or a response status below 200). -/
def bucket_of (req : NetReq) : Option Bucket :=
  if req.error.isSome then some .bfailed
  else
    match req.response with
    | some (some resp) =>
      if 200 ≤ resp.status ∧ resp.status < 300 then some .b2xx
      else if 300 ≤ resp.status ∧ resp.status < 400 then some .b3xx
      else if 400 ≤ resp.status ∧ resp.status < 500 then some .b4xx
      else if 500 ≤ resp.status then some .b5xx
      else none
    | _ => none

/-- Embeds `NetworkInspector._count_by_type`, a dict of per-resource-type
counts, modelled as its lookup function (`req.get("type", "Other")`). -/
def count_by_type (completed : List NetReq) : String → Nat :=
  fun t => (completed.filter (fun req => req.type.getD "Other" == t)).length

/-- Embeds the per-entry condition of the `error_count` generator at
network_inspector.py line 220: `r.get("error") or
(r.get("response", {}).get("status", 0) >= 400)`.  A present error dict
short-circuits to `True`; with no error, a present response dict compares
its status, a missing `response` key falls back to the empty dict (status 0),
and a `response` key holding `None` raises `AttributeError` (`none`). -/
def entry_is_error (req : NetReq) : Option Bool :=
  if req.error.isSome then some true
  else
    match req.response with
    | some (some resp) => some (decide (400 ≤ resp.status))
    | some none => none
    | none => some false

/-- Embeds the `error_count` computation at line 220: the generator evaluates
the entries left to right and the first `AttributeError` aborts the capture
before any report is produced. -/
def error_count (completed : List NetReq) : Option Nat :=
  (completed.mapM entry_is_error).map (fun bs => (bs.filter id).length)

/-- The report dict returned by `NetworkInspector.capture`: the `data` array
and the `summary` fields (`metadata` holds only wall-clock and configuration
echoes and is omitted). -/
structure NIReport where
  data : List NetReq
  total : Nat
  errors : Nat
  by_type : String → Nat
  by_status : StatusCounts

/-- Embeds lines 220-241 of `NetworkInspector.capture`: `error_count` is
computed first (its `AttributeError` aborts the build), then the report dict
is assembled with `data` and `summary.total` both taken from
`self.completed`. -/
def ni_report (completed : List NetReq) : Option NIReport :=
  match error_count completed with
  | none => none
  | some ec => some
    { data := completed, total := completed.length, errors := ec,
      by_type := count_by_type completed, by_status := count_by_status completed }

/-! ### Combined debugger (`combined_debugger.py`)

One entry of `CombinedDebugger.events` is a dict with a `type` key, a
`timestamp_ms` key, and per-kind remaining keys; the remaining keys are
modelled as an association list so that the structural (by-value) equality
`e != event` of Python dicts is the derived structural equality. -/

/-- One entry of `CombinedDebugger.events`. -/
structure CEvent where
  type : String
  timestamp_ms : Int
  payload : List (String × String)
deriving DecidableEq, Repr

/-- Stable ascending sort by an integer key: embeds Python's stable
`sorted(..., key=...)` / `list.sort(key=...)`, realized by Mathlib's
(stable) insertion sort. -/
def sort_by_key {α : Type} (key : α → Int) (l : List α) : List α :=
  List.insertionSort (fun a b => key a ≤ key b) l

/-- Embeds `sorted(self.events, key=lambda e: e["timestamp_ms"])` at
combined_debugger.py line 239. -/
def sort_events (events : List CEvent) : List CEvent :=
  sort_by_key (fun e => e.timestamp_ms) events

/-- One entry of the `correlated_events` list of
`CombinedDebugger._build_output`: the copied event plus the optional
`related_events` key (set only for nonempty `nearby` lists). -/
structure CorrEvent where
  event : CEvent
  related_events : Option (List CEvent)
deriving DecidableEq, Repr

/-- Embeds the correlation loop of `CombinedDebugger._build_output` (lines
238-256): events are sorted by timestamp; for each `page_error` or
`request_failed` entry the `nearby` list collects every entry of the sorted
list within 100 ms that is not structurally equal to it, and a nonempty
`nearby` is attached as `related_events`. -/
def build_correlated (events : List CEvent) : List CorrEvent :=
  let sorted_events := sort_events events
  sorted_events.map (fun event =>
    if event.type = "page_error" ∨ event.type = "request_failed" then
      let nearby := sorted_events.filter
        (fun e => decide (|e.timestamp_ms - event.timestamp_ms| ≤ 100 ∧ e ≠ event))
      if nearby.isEmpty then { event := event, related_events := none }
      else { event := event, related_events := some nearby }
    else { event := event, related_events := none })

/-- The dict returned by `CombinedDebugger._build_output`: the `events` array
and the `summary` counters (the constant `metadata` is omitted). -/
structure CombinedOutput where
  events : List CorrEvent
  total_events : Nat
  requests : Nat
  responses : Nat
  errors : Nat
  console_messages : Nat
deriving DecidableEq, Repr

/-- Embeds `CombinedDebugger._build_output` (lines 236-273). -/
def build_output (events : List CEvent) : CombinedOutput :=
  let correlated_events := build_correlated events
  { events := correlated_events,
    total_events := correlated_events.length,
    requests := (correlated_events.filter (fun e => e.event.type == "request")).length,
    responses := (correlated_events.filter (fun e => e.event.type == "response")).length,
    errors := (correlated_events.filter
      (fun e => e.event.type == "page_error" || e.event.type == "request_failed")).length,
    console_messages := (correlated_events.filter (fun e => e.event.type == "console")).length }

/-- One entry of `CombinedDebugger.requests`, keyed by the Python `id()` of
the request object (a `Nat`); the `headers` and response-update keys are not
read by any property and are omitted. -/
structure CombinedReq where
  id : String
  url : String
  method : String
  type : String
  timestamp_ms : Int
deriving DecidableEq, Repr

/-- Collector state of a `CombinedDebugger`: the pending dict `self.requests`
(lookup function over `id()` keys) and the flat event list `self.events`. -/
structure CDState where
  requests : Nat → Option CombinedReq
  events : List CEvent

/-- Initial `CombinedDebugger` collector state. -/
def cd_init : CDState := { requests := fun _ => none, events := [] }

/-- Python dict assignment on the combined debugger's pending map. -/
def cupd (m : Nat → Option CombinedReq) (k : Nat) (v : Option CombinedReq) :
    Nat → Option CombinedReq :=
  fun k' => if k' = k then v else m k'

/-- Embeds `CombinedDebugger._on_request` (lines 131-157): filtered requests
are dropped; accepted ones unconditionally assign a fresh record into
`self.requests[request_id]` (overwriting any record already there) and append
a `request` event. -/
def cd_on_request (filter_types : Option (List String)) (url_pattern : Option (String → Bool))
    (st : CDState) (request_id : Nat) (url method resource_type : String) (ts : Int) : CDState :=
  if should_capture filter_types url_pattern url resource_type then
    let req : CombinedReq :=
      { id := toString request_id, url := url, method := method,
        type := resource_type, timestamp_ms := ts }
    let ev : CEvent :=
      { type := "request", timestamp_ms := ts,
        payload := [("url", url), ("method", method), ("resource_type", resource_type)] }
    { requests := cupd st.requests request_id (some req), events := st.events ++ [ev] }
  else st

/-- Embeds `CombinedDebugger._on_console` (lines 208-222): with `errors_only`
set, a message whose raw Playwright type is neither `error` nor `warning` is
dropped; otherwise a `console` event is appended. -/
def cd_on_console (errors_only : Bool) (msg_type text : String) (ts : Int)
    (st : CDState) : CDState :=
  if errors_only ∧ msg_type ≠ "error" ∧ msg_type ≠ "warning" then st
  else
    let ev : CEvent :=
      { type := "console", timestamp_ms := ts, payload := [("level", msg_type), ("text", text)] }
    { st with events := st.events ++ [ev] }

/-- The navigation-error event appended by the `except` branch of
`CombinedDebugger.capture` (lines 112-121). -/
def cd_navigation_error_event (error_text : String) (ts : Int) : CEvent :=
  { type := "navigation_error", timestamp_ms := ts, payload := [("error", error_text)] }

/-- Outcome of `CombinedDebugger.capture`'s control flow: unlike the network
inspector, the `asyncio.sleep(duration)` at line 124 sits outside the
`try`/`except` around `page.goto`, so the observation window runs whether or
not navigation fails. -/
structure CDCaptureRun where
  slept : Bool
  raw_events : List CEvent
  output : CombinedOutput

/-- Embeds the control flow of `CombinedDebugger.capture` (lines 92-129):
events delivered up to the navigation attempt, the optional navigation-error
event, then events delivered during the observation sleep, then
`_build_output`. -/
def cd_capture (goto_ok : Bool) (error_text : String) (ts : Int)
    (events_nav events_sleep : List CEvent) : CDCaptureRun :=
  let after_nav :=
    if goto_ok then events_nav else events_nav ++ [cd_navigation_error_event error_text ts]
  let raw := after_nav ++ events_sleep
  { slept := true, raw_events := raw, output := build_output raw }

/-! ### Console debugger report (`console_debugger.py` lines 210-244) -/

/-- Embeds `all_entries.sort(key=lambda x: x.get("timestamp", 0))` at
console_debugger.py line 211. -/
def console_sort (entries : List ConsoleEntry) : List ConsoleEntry :=
  sort_by_key (fun e => e.timestamp.getD 0) entries

/-- Embeds `ConsoleDebugger._count_by_level`, modelled as the lookup function
of the counts dict. -/
def count_by_level (entries : List ConsoleEntry) : String → Nat :=
  fun level => (entries.filter (fun e => e.level == level)).length

/-- The dict returned by `ConsoleDebugger.capture`: `data` plus the `summary`
fields (`metadata` omitted). -/
structure ConsoleReport where
  data : List ConsoleEntry
  total : Nat
  messages : Nat
  exceptions : Nat
  by_level : String → Nat
  errors : Nat
  warnings : Nat

/-- Embeds lines 210-236 of `ConsoleDebugger.capture`: messages and
exceptions are concatenated, sorted in place by optional timestamp, and the
sorted list is both emitted as `data` and counted for `summary.total`. -/
def console_report (messages exceptions : List ConsoleEntry) : ConsoleReport :=
  let all_entries := console_sort (messages ++ exceptions)
  { data := all_entries,
    total := all_entries.length,
    messages := messages.length,
    exceptions := exceptions.length,
    by_level := count_by_level all_entries,
    errors := (all_entries.filter (fun e => e.level == "error")).length,
    warnings := (all_entries.filter (fun e => e.level == "warning")).length }

/-! ### Concrete instances used by the closed counterexample and witness
theorems below -/

/-- A `page_error` event at offset 0. -/
def page_error_event : CEvent :=
  { type := "page_error", timestamp_ms := 0, payload := [("error", "TypeError: x")] }

/-- A `request` event at offset 50, within the 100 ms correlation window of
offset 0. -/
def request_event_50 : CEvent :=
  { type := "request", timestamp_ms := 50,
    payload := [("url", "http://a/x"), ("method", "GET"), ("resource_type", "xhr")] }

/-- A `navigation_error` event at offset 0. -/
def nav_error_event_0 : CEvent :=
  { type := "navigation_error", timestamp_ms := 0, payload := [("error", "net::ERR_FAILED")] }

/-- A terminal, successfully finished request whose response carried the
informational status 101 (e.g. a WebSocket upgrade handshake). -/
def informational_response_req : NetReq :=
  { id := "1", url := "ws://a/socket", method := some "GET", type := some "WebSocket",
    response := some (some { status := 101, status_text := "Switching Protocols", mime_type := "" }),
    error := none, completed := some true, encoded_data_length := some 0 }

/-- A delivered-event sequence holding a single request start and nothing
else: the request is still pending when the capture ends. -/
def start_only_trace : List CDPEvent :=
  [.requestWillBeSent "1" "http://a/x" "GET" "XHR"]

/-- A delivered-event sequence holding a request start followed by its
loading failure. -/
def start_then_fail_trace : List CDPEvent :=
  [.requestWillBeSent "1" "http://a/x" "GET" "XHR",
   .loadingFailed "1" "Fetch" "net::ERR_FAILED" false]

/-- The completed-list entry that `start_then_fail_trace` produces. -/
def failed_entry : NetReq :=
  { id := "1", url := "http://a/x", method := some "GET", type := some "XHR",
    response := some none,
    error := some { type := "Fetch", error_text := "net::ERR_FAILED", canceled := some false },
    completed := some false, encoded_data_length := none }

/-- A pending entry for request id `1` pointing at `http://a/old`. -/
def pending_entry_old : NetReq :=
  { id := "1", url := "http://a/old", method := some "GET", type := some "XHR",
    response := some none, error := none, completed := none, encoded_data_length := none }

/-- A collector state whose pending map already holds `pending_entry_old`
under request id `1`. -/
def state_with_pending : NIState :=
  { requests := upd (fun _ => none) "1" (some pending_entry_old), completed := [] }

/-- The two-event input list `page_error` at 0 followed by `request` at 50. -/
def page_error_pair : List CEvent := [page_error_event, request_event_50]

/-- The correlated entry that `build_correlated` produces for
`page_error_event` on `page_error_pair`. -/
def page_error_corr : CorrEvent :=
  { event := page_error_event, related_events := some [request_event_50] }

/-- The report that `ni_report` builds for an empty completed list. -/
def empty_report : NIReport :=
  { data := [], total := 0, errors := 0,
    by_type := count_by_type [], by_status := count_by_status [] }

/-! ## Helper lemmas -/

/-- Sortedness of `sort_by_key`: the key ordering is total and transitive. -/
theorem sorted_sort_by_key {α : Type} (key : α → Int) (l : List α) :
    List.Sorted (fun a b => key a ≤ key b) (sort_by_key key l) := by
  haveI : IsTotal α (fun a b => key a ≤ key b) := ⟨fun a b => le_total (key a) (key b)⟩
  haveI : IsTrans α (fun a b => key a ≤ key b) := ⟨fun _ _ _ hab hbc => le_trans hab hbc⟩
  exact List.sorted_insertionSort _ l

/-- Permutation property of `sort_by_key`. -/
theorem sort_by_key_perm {α : Type} (key : α → Int) (l : List α) :
    (sort_by_key key l).Perm l :=
  List.perm_insertionSort _ l

/-- Idempotence of `sort_by_key`: sorting a sorted list is the identity. -/
theorem sort_by_key_idem {α : Type} (key : α → Int) (l : List α) :
    sort_by_key key (sort_by_key key l) = sort_by_key key l :=
  List.Sorted.insertionSort_eq (sorted_sort_by_key key l)

/-- Key-class filtering commutes with `orderedInsert`: the inserted element is
placed before every retained element of its own key class (elements skipped by
the insertion have strictly smaller keys). -/
theorem filter_key_orderedInsert {α : Type} (key : α → Int) (k : Int) (a : α) :
    ∀ l : List α,
      (List.orderedInsert (fun x y => key x ≤ key y) a l).filter (fun x => decide (key x = k)) =
        if key a = k then a :: l.filter (fun x => decide (key x = k))
        else l.filter (fun x => decide (key x = k))
  | [] => by
    by_cases ha : key a = k <;> simp [List.orderedInsert, List.filter, ha]
  | b :: t => by
    by_cases hab : key a ≤ key b
    · rw [List.orderedInsert, if_pos hab]
      by_cases ha : key a = k <;> simp [List.filter, ha]
    · rw [List.orderedInsert, if_neg hab]
      have hb : key b < key a := lt_of_not_le hab
      by_cases ha : key a = k
      · have hbk : ¬ key b = k := by
          intro h
          rw [ha] at hb
          rw [h] at hb
          exact lt_irrefl k hb
        simp [List.filter, hbk, filter_key_orderedInsert key k a t, ha]
      · by_cases hbk : key b = k <;>
          simp [List.filter, hbk, filter_key_orderedInsert key k a t, ha]

/-- Stability of `sort_by_key`, as preservation of every key class: elements
with equal keys keep their original relative order. -/
theorem sort_by_key_stable {α : Type} (key : α → Int) (k : Int) :
    ∀ l : List α,
      (sort_by_key key l).filter (fun x => decide (key x = k)) =
        l.filter (fun x => decide (key x = k))
  | [] => rfl
  | a :: t => by
    have ih := sort_by_key_stable key k t
    unfold sort_by_key at ih ⊢
    show (List.orderedInsert _ a (List.insertionSort _ t)).filter _ = _
    rw [filter_key_orderedInsert]
    by_cases ha : key a = k <;> simp [List.filter, ha, ih]

/-! ## Claim theorems -/

/-- C4: the correlation pass sorts the events non-decreasing by millisecond
offset with ties kept in original arrival order (every timestamp class is
preserved verbatim), the output is a permutation of the input, and the sort
is idempotent; the same holds for the console debugger's entry sort keyed by
the optional timestamp. -/
theorem c4_sort_stable_idempotent (events : List CEvent) (entries : List ConsoleEntry) :
    List.Sorted (fun a b : CEvent => a.timestamp_ms ≤ b.timestamp_ms) (sort_events events) ∧
    (sort_events events).Perm events ∧
    (∀ k : Int, (sort_events events).filter (fun e => decide (e.timestamp_ms = k)) =
      events.filter (fun e => decide (e.timestamp_ms = k))) ∧
    sort_events (sort_events events) = sort_events events ∧
    List.Sorted (fun a b : ConsoleEntry => a.timestamp.getD 0 ≤ b.timestamp.getD 0)
      (console_sort entries) ∧
    (∀ k : Int, (console_sort entries).filter (fun e => decide (e.timestamp.getD 0 = k)) =
      entries.filter (fun e => decide (e.timestamp.getD 0 = k))) ∧
    console_sort (console_sort entries) = console_sort entries :=
  ⟨sorted_sort_by_key _ events, sort_by_key_perm _ events,
    fun k => sort_by_key_stable _ k events, sort_by_key_idem _ events,
    sorted_sort_by_key _ entries,
    fun k => sort_by_key_stable _ k entries, sort_by_key_idem _ entries⟩

/-- C9: a response body one character longer than the configured ceiling is
stored as exactly the first `max` characters followed by the fixed truncation
marker carrying the original length, and a body of length at most `max` is
stored verbatim with no marker. -/
theorem c9_truncation (max_body_size : Nat) (body : List Char) :
    (body.length = max_body_size + 1 →
      store_body max_body_size body =
        body.take max_body_size ++ truncation_marker (max_body_size + 1)) ∧
    (body.length ≤ max_body_size → store_body max_body_size body = body) := by
  constructor
  · intro h
    rw [store_body, if_pos (by rw [h]; exact Nat.lt_succ_self _), h]
  · intro h
    rw [store_body, if_neg (by exact Nat.not_lt.mpr h)]

/-- Witness for C9 at `max = 3`: the four-character body `abcd` is truncated
to `abc` plus the marker recording length 4, and the three-character body
`abc` is stored verbatim. -/
theorem c9_truncation_witness :
    ("abcd".data.length = 3 + 1 ∧
      store_body 3 "abcd".data = "abcd".data.take 3 ++ truncation_marker (3 + 1)) ∧
    ("abc".data.length ≤ 3 ∧ store_body 3 "abc".data = "abc".data) :=
  ⟨⟨by decide, (c9_truncation 3 "abcd".data).1 (by decide)⟩,
   ⟨by decide, (c9_truncation 3 "abc".data).2 (by decide)⟩⟩

/-- C5 counterexample: with a configured (present) but empty resource-type
allowlist and no URL pattern, the filter accepts a candidate of resource type
`xhr` (Python truthiness treats the empty allowlist as no filter), while the
claim's acceptance condition — allowlist absent, or resource type a
case-insensitive member — rejects it.  The claimed equivalence is therefore
false at this input. -/
theorem c5_counterexample :
    should_capture (some []) none "http://a/x" "xhr" = true ∧
    accepts_spec (some []) none "http://a/x" "xhr" = false := by
  constructor
  · decide
  · decide

/-- C5 amended: the filter accepts a candidate iff (the allowlist is absent
**or empty**, or the candidate's resource type is a case-insensitive member
of it) and (the pattern is absent or the URL matches it); consequently no
accepted event has a resource type outside a configured *nonempty*
allowlist. -/
theorem c5_filter_characterization (filter_types : Option (List String))
    (url_pattern : Option (String → Bool)) (url resource_type : String) :
    (should_capture filter_types url_pattern url resource_type = true ↔
      ((filter_types = none ∨ filter_types = some [] ∨
          ∃ ts, filter_types = some ts ∧ str_lower resource_type ∈ ts.map str_lower) ∧
        (url_pattern = none ∨ ∃ p, url_pattern = some p ∧ p url = true))) ∧
    (∀ ts, filter_types = some ts → ts ≠ [] →
      should_capture filter_types url_pattern url resource_type = true →
      str_lower resource_type ∈ ts.map str_lower) := by
  have hpat : pattern_passes url_pattern url = true ↔
      (url_pattern = none ∨ ∃ p, url_pattern = some p ∧ p url = true) := by
    cases url_pattern with
    | none => simp [pattern_passes]
    | some p => simp [pattern_passes]
  have htype : type_filter_passes filter_types resource_type = true ↔
      (filter_types = none ∨ filter_types = some [] ∨
        ∃ ts, filter_types = some ts ∧ str_lower resource_type ∈ ts.map str_lower) := by
    cases filter_types with
    | none => simp [type_filter_passes]
    | some ts =>
      by_cases hts : ts = []
      · subst hts
        simp [type_filter_passes]
      · obtain ⟨x, xs, rfl⟩ : ∃ x xs, ts = x :: xs := by
          cases ts with
          | nil => exact absurd rfl hts
          | cons x xs => exact ⟨x, xs, rfl⟩
        simp only [type_filter_passes, List.isEmpty_cons, Bool.false_eq_true, if_false]
        rw [List.contains_iff_exists_mem_beq]
        constructor
        · rintro ⟨y, hy, hbeq⟩
          refine Or.inr (Or.inr ⟨x :: xs, rfl, ?_⟩)
          rw [show str_lower resource_type = y from by simpa using hbeq]
          exact hy
        · rintro (h | h | ⟨ts', hts', hmem⟩)
          · cases h
          · exact absurd (Option.some.inj h) (List.cons_ne_nil x xs)
          · cases Option.some.inj hts'
            exact ⟨str_lower resource_type, hmem, by simp⟩

  constructor
  · rw [should_capture, Bool.and_eq_true, hpat, htype]
  · intro ts hts hne hcap
    rw [should_capture, Bool.and_eq_true, htype] at hcap
    rcases hcap.1 with h | h | ⟨ts', hts', hmem⟩
    · rw [hts] at h
      cases h
    · rw [hts] at h
      cases h
      exact absurd rfl hne
    · rw [hts] at hts'
      cases hts'
      exact hmem

/-- Witness for C5 amended: a one-element allowlist `XHR` accepts resource
type `xhr` case-insensitively, and the characterization instantiates there. -/
theorem c5_filter_characterization_witness :
    (should_capture (some ["XHR"]) none "http://a/x" "xhr" = true ↔
      (((some ["XHR"] : Option (List String)) = none ∨ some ["XHR"] = some ([] : List String) ∨
          ∃ ts, some ["XHR"] = some ts ∧ str_lower "xhr" ∈ ts.map str_lower) ∧
        ((none : Option (String → Bool)) = none ∨
          ∃ p, (none : Option (String → Bool)) = some p ∧ p "http://a/x" = true))) ∧
    str_lower "xhr" ∈ ["XHR"].map str_lower :=
  ⟨(c5_filter_characterization (some ["XHR"]) none "http://a/x" "xhr").1,
   (c5_filter_characterization (some ["XHR"]) none "http://a/x" "xhr").2
     ["XHR"] rfl (by decide) (by decide)⟩

/-- C6 counterexample: with errors-only enabled, the console debugger drops a
message of raw type `warn`, even though its mapped severity level is
`warning` — so "accepted iff the severity setting admits all levels or the
event's level is error or warning" is false at this input. -/
theorem c6_counterexample :
    on_console_api_called true true "warn" "w" 0 [] = [] ∧
    type_to_level "warn" = "warning" := by
  constructor
  · decide
  · decide

/-- C6 amended: acceptance is decided by the *raw* message type, not the
mapped severity level: the console debugger stores a message iff errors-only
is off or the raw type is `error`, `warning` or `assert`; the combined
debugger stores one iff errors-only is off or the raw type is `error` or
`warning`.  In particular a `log` message is never stored by either under
errors-only. -/
theorem c6_severity_filter (errors_only include_timestamps : Bool) (msg_type text : String)
    (ts : Int) (messages : List ConsoleEntry) (st : CDState) :
    ((on_console_api_called errors_only include_timestamps msg_type text ts messages).length =
      messages.length +
        (if errors_only = false ∨ msg_type = "error" ∨ msg_type = "warning" ∨ msg_type = "assert"
         then 1 else 0)) ∧
    ((cd_on_console errors_only msg_type text ts st).events.length =
      st.events.length +
        (if errors_only = false ∨ msg_type = "error" ∨ msg_type = "warning" then 1 else 0)) ∧
    (errors_only = true → msg_type = "log" →
      on_console_api_called errors_only include_timestamps msg_type text ts messages = messages ∧
      cd_on_console errors_only msg_type text ts st = st) := by
  refine ⟨?_, ?_, ?_⟩
  · cases errors_only with
    | false => simp [on_console_api_called]
    | true =>
      by_cases e1 : msg_type = "error" <;> by_cases e2 : msg_type = "warning" <;>
        by_cases e3 : msg_type = "assert" <;>
          simp [on_console_api_called, e1, e2, e3]
  · cases errors_only with
    | false => simp [cd_on_console]
    | true =>
      by_cases e1 : msg_type = "error" <;> by_cases e2 : msg_type = "warning" <;>
        simp [cd_on_console, e1, e2]
  · intro heo hlog
    subst heo
    subst hlog
    constructor
    · simp [on_console_api_called]
    · simp [cd_on_console]

/-- Witness for C6 amended at errors-only with a `log` message: neither
debugger stores it. -/
theorem c6_severity_filter_witness :
    on_console_api_called true true "log" "hello" 0 [] = [] ∧
    cd_on_console true "log" "hello" 0 cd_init = cd_init :=
  (c6_severity_filter true true "log" "hello" 0 [] cd_init).2.2 rfl rfl

/-- One loop iteration of `_count_by_status` increments exactly the counter
named by `bucket_of`, or none. -/
theorem count_by_status_step_eq (c : StatusCounts) (req : NetReq) :
    count_by_status_step c req =
      match bucket_of req with
      | some .b2xx => { c with s2xx := c.s2xx + 1 }
      | some .b3xx => { c with s3xx := c.s3xx + 1 }
      | some .b4xx => { c with s4xx := c.s4xx + 1 }
      | some .b5xx => { c with s5xx := c.s5xx + 1 }
      | some .bfailed => { c with failed := c.failed + 1 }
      | none => c := by
  simp only [count_by_status_step, bucket_of]
  by_cases he : req.error.isSome
  · rw [if_pos he, if_pos he]
  · rw [if_neg he, if_neg he]
    cases req.response with
    | none => rfl
    | some ro =>
      cases ro with
      | none => rfl
      | some resp =>
        dsimp only
        split_ifs <;> rfl

/-- Characterization of the `_count_by_status` fold: starting from an
arbitrary accumulator, each counter grows by the number of list entries in
its bucket. -/
theorem count_by_status_foldl (l : List NetReq) : ∀ c : StatusCounts,
    l.foldl count_by_status_step c =
      { s2xx := c.s2xx + (l.filter (fun r => decide (bucket_of r = some .b2xx))).length,
        s3xx := c.s3xx + (l.filter (fun r => decide (bucket_of r = some .b3xx))).length,
        s4xx := c.s4xx + (l.filter (fun r => decide (bucket_of r = some .b4xx))).length,
        s5xx := c.s5xx + (l.filter (fun r => decide (bucket_of r = some .b5xx))).length,
        failed := c.failed + (l.filter (fun r => decide (bucket_of r = some .bfailed))).length } := by
  induction l with
  | nil => intro c; simp
  | cons r t ih =>
    intro c
    rw [List.foldl_cons, ih, count_by_status_step_eq]
    cases hb : bucket_of r with
    | none =>
      simp [List.filter_cons, hb]
    | some b =>
      cases b <;>
        simp [List.filter_cons, hb, StatusCounts.mk.injEq] <;> omega

/-- The bucket filters partition the entries that fall into some bucket. -/
theorem filter_bucket_sum (l : List NetReq) :
    (l.filter (fun r => (bucket_of r).isSome)).length =
      (l.filter (fun r => decide (bucket_of r = some .b2xx))).length +
      (l.filter (fun r => decide (bucket_of r = some .b3xx))).length +
      (l.filter (fun r => decide (bucket_of r = some .b4xx))).length +
      (l.filter (fun r => decide (bucket_of r = some .b5xx))).length +
      (l.filter (fun r => decide (bucket_of r = some .bfailed))).length := by
  induction l with
  | nil => rfl
  | cons r t ih =>
    cases hb : bucket_of r with
    | none => simp [List.filter_cons, hb, ih]
    | some b =>
      cases b <;> simp [List.filter_cons, hb, ih] <;> omega

/-- C2 counterexample: a single terminal event whose response status is 101
(an informational status, as a WebSocket upgrade produces) increments no
counter: the five counters sum to 0, not to the number (1) of terminal
network events in the list, refuting the claimed sum. -/
theorem c2_counterexample :
    sum_counts (count_by_status [informational_response_req]) = 0 ∧
    ([informational_response_req] : List NetReq).length = 1 := by
  constructor
  · decide
  · decide

/-- C2 amended: the five status-class counters are pairwise disjoint — each
terminal event increments exactly the one counter selected by `bucket_of`,
or none — and their sum equals the number of events that either carry an
error or carry a response with status at least 200.  An event with a
response status below 200, or with neither error nor response dict, is
counted in no class, so the sum can fall short of the number of terminal
events. -/
theorem c2_status_partition (completed : List NetReq) :
    (count_by_status completed).s2xx =
      (completed.filter (fun r => decide (bucket_of r = some .b2xx))).length ∧
    (count_by_status completed).s3xx =
      (completed.filter (fun r => decide (bucket_of r = some .b3xx))).length ∧
    (count_by_status completed).s4xx =
      (completed.filter (fun r => decide (bucket_of r = some .b4xx))).length ∧
    (count_by_status completed).s5xx =
      (completed.filter (fun r => decide (bucket_of r = some .b5xx))).length ∧
    (count_by_status completed).failed =
      (completed.filter (fun r => decide (bucket_of r = some .bfailed))).length ∧
    sum_counts (count_by_status completed) =
      (completed.filter (fun r => (bucket_of r).isSome)).length := by
  rw [count_by_status, count_by_status_foldl completed]
  refine ⟨by simp, by simp, by simp, by simp, by simp, ?_⟩
  rw [sum_counts, filter_bucket_sum]
  dsimp only
  omega

/-- One handler dispatch preserves the invariant that every entry of the
finished list carries a terminal completion flag or an error: entries reach
`completed` only through `loadingFinished` (which stamps `completed=True`) or
`loadingFailed` (which stamps an error and `completed=False`). -/
theorem ni_step_terminal_invariant (filter_types : Option (List String))
    (url_pattern : Option (String → Bool)) (errors_only : Bool) (st : NIState) (ev : CDPEvent)
    (h : ∀ r ∈ st.completed, r.completed.isSome ∨ r.error.isSome) :
    ∀ r ∈ (ni_step filter_types url_pattern errors_only st ev).completed,
      r.completed.isSome ∨ r.error.isSome := by
  cases ev with
  | requestWillBeSent request_id url method resource_type =>
    rw [ni_step, on_request_will_be_sent]
    split
    · exact h
    · exact h
  | responseReceived request_id resp =>
    rw [ni_step, on_response_received]
    cases st.requests request_id
    · exact h
    · exact h
  | loadingFinished request_id encoded =>
    rw [ni_step, on_loading_finished]
    cases st.requests request_id with
    | none => exact h
    | some req =>
      dsimp only
      split
      · exact h
      · split
        · intro r hr
          rcases List.mem_append.mp hr with hmem | hmem
          · exact h r hmem
          · rw [List.mem_singleton.mp hmem]
            exact Or.inl rfl
        · exact h
  | loadingFailed request_id error_type error_text canceled =>
    rw [ni_step, on_loading_failed]
    cases st.requests request_id with
    | none => exact h
    | some req =>
      intro r hr
      rcases List.mem_append.mp hr with hmem | hmem
      · exact h r hmem
      · rw [List.mem_singleton.mp hmem]
        exact Or.inr rfl

/-- The invariant of `ni_step_terminal_invariant`, carried through a whole
delivered-event sequence. -/
theorem ni_foldl_terminal_invariant (filter_types : Option (List String))
    (url_pattern : Option (String → Bool)) (errors_only : Bool) :
    ∀ (trace : List CDPEvent) (st : NIState),
      (∀ r ∈ st.completed, r.completed.isSome ∨ r.error.isSome) →
      ∀ r ∈ (trace.foldl (ni_step filter_types url_pattern errors_only) st).completed,
        r.completed.isSome ∨ r.error.isSome
  | [], _, h => h
  | ev :: rest, st, h =>
    ni_foldl_terminal_invariant filter_types url_pattern errors_only rest _
      (ni_step_terminal_invariant filter_types url_pattern errors_only st ev h)

/-- C1 counterexample: a capture session that records a request start into
the pending map and then ends (no terminal event, successful navigation)
emits an empty data array even though the request is still pending — the
pending request is silently dropped rather than flushed as an incomplete
event, refuting the claim. -/
theorem c1_counterexample :
    (ni_capture none none false start_only_trace true "http://a" "").data = [] ∧
    ((ni_run none none false start_only_trace).requests "1").isSome = true := by
  constructor
  · decide
  · decide

/-- C1 amended: pending requests are never flushed: every entry of the
emitted data array carries a terminal completion flag or an error (it came
from `loadingFinished`, `loadingFailed`, or the navigation-error append), so
a request whose start was recorded but that received no terminal event
before the window ended appears nowhere in the output — it is silently
dropped with the pending map at teardown. -/
theorem c1_pending_dropped (filter_types : Option (List String))
    (url_pattern : Option (String → Bool)) (errors_only : Bool) (trace : List CDPEvent)
    (goto_ok : Bool) (url error_text : String) :
    ∀ r ∈ (ni_capture filter_types url_pattern errors_only trace goto_ok url error_text).data,
      r.completed.isSome ∨ r.error.isSome := by
  have hrun : ∀ r ∈ (ni_run filter_types url_pattern errors_only trace).completed,
      r.completed.isSome ∨ r.error.isSome :=
    ni_foldl_terminal_invariant filter_types url_pattern errors_only trace ni_init
      (by intro r hr; cases hr)
  rw [ni_capture]
  cases goto_ok with
  | true => exact hrun
  | false =>
    intro r hr
    rcases List.mem_append.mp hr with hmem | hmem
    · exact hrun r hmem
    · rw [List.mem_singleton.mp hmem]
      exact Or.inr rfl

/-- Witness for C1 amended: the entry produced by a start followed by a
loading failure is in the data array and carries both a terminal flag and an
error. -/
theorem c1_pending_dropped_witness :
    failed_entry ∈ (ni_capture none none false start_then_fail_trace true "http://a" "").data ∧
    (failed_entry.completed.isSome ∨ failed_entry.error.isSome) :=
  ⟨by decide,
   c1_pending_dropped none none false start_then_fail_trace true "http://a" ""
     failed_entry (by decide)⟩

/-- C8 counterexample: a second start event for request id `1` (pointing at
`http://b/new`) is not discarded — it replaces the pending entry for that id,
so the existing entry is not left unchanged, refuting the claim. -/
theorem c8_counterexample :
    (on_request_will_be_sent none none state_with_pending "1" "http://b/new" "POST" "Fetch").requests "1"
      ≠ some pending_entry_old ∧
    (on_request_will_be_sent none none state_with_pending "1" "http://b/new" "POST" "Fetch").requests "1"
      = some { id := "1", url := "http://b/new", method := some "POST", type := some "Fetch",
               response := some none, error := none, completed := none,
               encoded_data_length := none } := by
  constructor
  · decide
  · decide

/-- C8 amended: recording a start whose request id is already pending is
last-writer-wins, not a silent drop: in both debuggers the pending entry for
that id is replaced by a fresh record built solely from the new event
(whatever was stored before is discarded), and the combined debugger
additionally appends another start event to its event list. -/
theorem c8_duplicate_start_overwrites (filter_types : Option (List String))
    (url_pattern : Option (String → Bool)) (st : NIState) (cst : CDState)
    (request_id url method resource_type : String) (cid : Nat)
    (curl cmethod ctype : String) (ts : Int)
    (hcap : should_capture filter_types url_pattern url resource_type = true)
    (hccap : should_capture filter_types url_pattern curl ctype = true) :
    ((on_request_will_be_sent filter_types url_pattern st request_id url method
        resource_type).requests request_id =
      some { id := request_id, url := url, method := some method, type := some resource_type,
             response := some none, error := none, completed := none,
             encoded_data_length := none }) ∧
    ((cd_on_request filter_types url_pattern cst cid curl cmethod ctype ts).requests cid =
      some { id := toString cid, url := curl, method := cmethod, type := ctype,
             timestamp_ms := ts }) ∧
    ((cd_on_request filter_types url_pattern cst cid curl cmethod ctype ts).events =
      cst.events ++
        [{ type := "request", timestamp_ms := ts,
           payload := [("url", curl), ("method", cmethod), ("resource_type", ctype)] }]) := by
  refine ⟨?_, ?_, ?_⟩
  · rw [on_request_will_be_sent, if_pos hcap]
    simp [upd]
  · rw [cd_on_request, if_pos hccap]
    simp [cupd]
  · rw [cd_on_request, if_pos hccap]

/-- Witness for C8 amended: with no filters configured, replaying a start for
the already-pending id `1` yields the fresh `http://b/new` record. -/
theorem c8_duplicate_start_overwrites_witness :
    should_capture none none "http://b/new" "Fetch" = true ∧
    ((on_request_will_be_sent none none state_with_pending "1" "http://b/new" "POST"
        "Fetch").requests "1" =
      some { id := "1", url := "http://b/new", method := some "POST", type := some "Fetch",
             response := some none, error := none, completed := none,
             encoded_data_length := none }) :=
  ⟨by decide,
   (c8_duplicate_start_overwrites none none state_with_pending cd_init "1" "http://b/new"
      "POST" "Fetch" 0 "http://b/new" "POST" "Fetch" 0 (by decide) (by decide)).1⟩

/-- Every entry of the correlated output copies its event unchanged: the
event projections of `build_correlated` are exactly the sorted input. -/
theorem build_correlated_events_eq (events : List CEvent) :
    (build_correlated events).map (fun c => c.event) = sort_events events := by
  rw [build_correlated, List.map_map]
  conv_rhs => rw [← List.map_id (sort_events events)]
  apply List.map_congr_left
  intro e _
  dsimp only [Function.comp]
  split_ifs <;> rfl

/-- C7 counterexample: in the network inspector a failed navigation skips the
rest of the `try` block — the idle wait and the observation sleep — so the
capture does not proceed through the observation window, refuting the claim
for `NetworkInspector.capture`; the navigation-error event itself is
recorded. -/
theorem c7_counterexample :
    (ni_capture none none false [] false "http://x" "boom").slept = false ∧
    navigation_error_entry "http://x" "boom" ∈
      (ni_capture none none false [] false "http://x" "boom").data := by
  constructor
  · decide
  · decide

/-- C7 amended: a navigation failure is non-fatal in both tools — it is
recorded as a navigation-error event and a report is still built from the
collected data — but only the combined debugger proceeds through the
observation window (its sleep sits outside the `try`); the network inspector
skips the remaining window and goes straight to teardown. -/
theorem c7_navigation_failure (filter_types : Option (List String))
    (url_pattern : Option (String → Bool)) (errors_only : Bool) (trace : List CDPEvent)
    (url error_text : String) (ts : Int) (events_nav events_sleep : List CEvent) :
    navigation_error_entry url error_text ∈
      (ni_capture filter_types url_pattern errors_only trace false url error_text).data ∧
    (ni_capture filter_types url_pattern errors_only trace false url error_text).slept = false ∧
    (ni_capture filter_types url_pattern errors_only trace true url error_text).slept = true ∧
    (cd_capture false error_text ts events_nav events_sleep).slept = true ∧
    cd_navigation_error_event error_text ts ∈
      (cd_capture false error_text ts events_nav events_sleep).raw_events ∧
    (∃ c ∈ (cd_capture false error_text ts events_nav events_sleep).output.events,
      c.event = cd_navigation_error_event error_text ts) := by
  refine ⟨?_, rfl, rfl, rfl, ?_, ?_⟩
  · rw [ni_capture]
    exact List.mem_append.mpr (Or.inr (List.mem_singleton.mpr rfl))
  · rw [cd_capture]
    exact List.mem_append.mpr
      (Or.inl (List.mem_append.mpr (Or.inr (List.mem_singleton.mpr rfl))))
  · have hraw : cd_navigation_error_event error_text ts ∈
        (cd_capture false error_text ts events_nav events_sleep).raw_events := by
      rw [cd_capture]
      exact List.mem_append.mpr
        (Or.inl (List.mem_append.mpr (Or.inr (List.mem_singleton.mpr rfl))))
    have hsorted : cd_navigation_error_event error_text ts ∈
        sort_events (cd_capture false error_text ts events_nav events_sleep).raw_events :=
      ((sort_by_key_perm _ _).mem_iff).mpr hraw
    have hout : (cd_capture false error_text ts events_nav events_sleep).output.events =
        build_correlated (cd_capture false error_text ts events_nav events_sleep).raw_events :=
      rfl
    rw [hout]
    have := build_correlated_events_eq
      (cd_capture false error_text ts events_nav events_sleep).raw_events
    rw [← this] at hsorted
    rcases List.mem_map.mp hsorted with ⟨c, hc, hce⟩
    exact ⟨c, hc, hce⟩

/-- C3 counterexample: a `navigation_error` event — a failure kind under the
claim — with another event 50 ms away carries no `related_events` at all,
because the correlation loop only treats `page_error` and `request_failed`
as failure kinds; the claim requires its related list to be exactly the
nonempty set of events within 100 ms. -/
theorem c3_counterexample :
    build_correlated [nav_error_event_0, request_event_50] =
      [{ event := nav_error_event_0, related_events := none },
       { event := request_event_50, related_events := none }] ∧
    |request_event_50.timestamp_ms - nav_error_event_0.timestamp_ms| ≤ 100 ∧
    request_event_50 ≠ nav_error_event_0 := by
  refine ⟨by decide, by decide, by decide⟩

/-- C3 amended: only `page_error` and `request_failed` entries receive
related events — `navigation_error` entries (and all non-failure kinds) carry
none.  For those two kinds the attached list (empty when the key is absent)
holds exactly the entries of the sorted output that lie within 100 ms and
are not structurally equal to the event — structural inequality, so a
byte-identical duplicate is excluded from its twin's related list. -/
theorem c3_related_events (events : List CEvent) (c : CorrEvent)
    (hc : c ∈ build_correlated events) :
    (¬(c.event.type = "page_error" ∨ c.event.type = "request_failed") →
      c.related_events = none) ∧
    ((c.event.type = "page_error" ∨ c.event.type = "request_failed") →
      ∀ e2 : CEvent, e2 ∈ c.related_events.getD [] ↔
        (e2 ∈ sort_events events ∧
          |e2.timestamp_ms - c.event.timestamp_ms| ≤ 100 ∧ e2 ≠ c.event)) := by
  rw [build_correlated] at hc
  rcases List.mem_map.mp hc with ⟨e, he, hfe⟩
  dsimp only at hfe
  by_cases hk : e.type = "page_error" ∨ e.type = "request_failed"
  · rw [if_pos hk] at hfe
    by_cases hemp : ((sort_events events).filter
        (fun x => decide (|x.timestamp_ms - e.timestamp_ms| ≤ 100 ∧ x ≠ e))).isEmpty
    · rw [if_pos hemp] at hfe
      cases hfe
      refine ⟨fun hnot => absurd hk hnot, fun _ e2 => ?_⟩
      constructor
      · intro hmem
        cases hmem
      · rintro ⟨h1, h2, h3⟩
        have hfil : e2 ∈ (sort_events events).filter
            (fun x => decide (|x.timestamp_ms - e.timestamp_ms| ≤ 100 ∧ x ≠ e)) :=
          List.mem_filter.mpr ⟨h1, decide_eq_true ⟨h2, h3⟩⟩
        rw [List.isEmpty_iff.mp hemp] at hfil
        cases hfil
    · rw [if_neg hemp] at hfe
      cases hfe
      refine ⟨fun hnot => absurd hk hnot, fun _ e2 => ?_⟩
      show e2 ∈ (sort_events events).filter
          (fun x => decide (|x.timestamp_ms - e.timestamp_ms| ≤ 100 ∧ x ≠ e)) ↔ _
      rw [List.mem_filter]
      constructor
      · rintro ⟨h1, h2⟩
        rcases of_decide_eq_true h2 with ⟨h2a, h2b⟩
        exact ⟨h1, h2a, h2b⟩
      · rintro ⟨h1, h2, h3⟩
        exact ⟨h1, decide_eq_true ⟨h2, h3⟩⟩
  · rw [if_neg hk] at hfe
    cases hfe
    exact ⟨fun _ => rfl, fun hyes => absurd hyes hk⟩

/-- Witness for C3 amended: on the pair `page_error` at 0 / `request` at 50,
the correlated `page_error` entry is in the output and satisfies the
characterization. -/
theorem c3_related_events_witness :
    page_error_corr ∈ build_correlated page_error_pair ∧
    ((¬(page_error_corr.event.type = "page_error" ∨
          page_error_corr.event.type = "request_failed") →
        page_error_corr.related_events = none) ∧
      ((page_error_corr.event.type = "page_error" ∨
          page_error_corr.event.type = "request_failed") →
        ∀ e2 : CEvent, e2 ∈ page_error_corr.related_events.getD [] ↔
          (e2 ∈ sort_events page_error_pair ∧
            |e2.timestamp_ms - page_error_corr.event.timestamp_ms| ≤ 100 ∧
            e2 ≠ page_error_corr.event))) :=
  ⟨by decide, c3_related_events page_error_pair page_error_corr (by decide)⟩

/-- C10: in each of the three report builders the summary's total event count
and the emitted array are computed from the same finished-events list, so
they can never disagree: whenever the network inspector's report is built at
all, its `summary.total` equals the length of `data`; the console debugger's
`summary.total` equals the length of its `data`; and the combined debugger's
`summary.total_events` equals the length of its `events`. -/
theorem c10_total_matches_data :
    (∀ (completed : List NetReq) (rep : NIReport),
      ni_report completed = some rep → rep.total = rep.data.length) ∧
    (∀ messages exceptions : List ConsoleEntry,
      (console_report messages exceptions).total =
        (console_report messages exceptions).data.length) ∧
    (∀ events : List CEvent,
      (build_output events).total_events = (build_output events).events.length) := by
  refine ⟨?_, fun _ _ => rfl, fun _ => rfl⟩
  intro completed rep h
  rw [ni_report] at h
  cases hec : error_count completed with
  | none =>
    rw [hec] at h
    cases h
  | some ec =>
    rw [hec] at h
    cases Option.some.inj h
    rfl

/-- Witness for C10 on the empty completed list: the network inspector's
report builds and its total equals the data length. -/
theorem c10_total_matches_data_witness :
    ni_report [] = some empty_report ∧ empty_report.total = empty_report.data.length :=
  ⟨rfl, c10_total_matches_data.1 [] empty_report rfl⟩

end AgentToolkit
